import Mathlib

/-!
# Verification of the CLEOSim device-interaction registry and light model

Shallow embedding of `src/cleo/registry.py` (`DeviceInteractionRegistry`) and
of the Foutz et al. 2012 transmittance model from `src/cleosim/opto.py`.

Conventions of the embedding:
* Lights, light-dependent devices (LDDs) and neuron groups are identified by
  natural numbers; their attributes (element count, wavelength, scan
  frequency, epsilon, transmittance samples, group size) are supplied by an
  `Env` record, mirroring the attributes the Python code reads off the
  injected objects.
* Brian quantities are stripped to their SI magnitudes and represented as
  rationals (`ℚ`) in the registry part, so every registry operation is
  executable; the transmittance model of `opto.py` is genuine real-valued
  mathematics and is embedded over `ℝ`.
* Python dicts become association lists with an overwriting `upsert`;
  Python sets become duplicate-free lists; `KeyError`/`ValueError`/`assert`
  become an `Except RegError` result.
-/

namespace CleoRegistry

/-- Attributes of the injected devices, as read by the registry:
`lightN` = `light.n`, `lightWavelength` = `light.wavelength`,
`lightScanFreq` = `light.scan_freq`,
`lightT l g i j` = the transmittance value `light.transmittance(coords_from_ng(ng))`
contributes to source row `i` of light `l`'s slice and target `j` of group `g`,
`ldd_epsilon d w` = `ldd.epsilon(wavelength)`, `ngSize` = group size, and
`dt` = `defaultclock.dt`. -/
structure Env where
  lightN : Nat → Nat
  lightWavelength : Nat → ℚ
  lightScanFreq : Nat → ℚ
  lightT : Nat → Nat → Nat → Nat → ℚ
  ldd_epsilon : Nat → ℚ → ℚ
  ngSize : Nat → Nat
  dt : ℚ

/-- Per-edge state variables of a `light_prop` Synapses object
(`DeviceInteractionRegistry.light_prop_model`).  Each field is a function of
(source index, target index); Brian initializes state variables to `0`. -/
structure Syn where
  nSrc : Nat
  nTgt : Nat
  T : Nat → Nat → ℚ
  scale : Nat → Nat → ℚ
  epsilon : Nat → Nat → ℚ
  Ephoton : Nat → Nat → ℚ
  raster_enable : Nat → Nat → ℚ
  scan_period : Nat → Nat → ℚ
  raster_dwell_time : Nat → Nat → ℚ

/-- A fresh `Synapses` object: all variables zero except `Ephoton`, which
`_get_or_create_light_prop_syn` sets to `1 * joule` right after creation
("non-zero initialization to avoid nans from /0"). -/
def freshSyn (nSrc nTgt : Nat) : Syn where
  nSrc := nSrc
  nTgt := nTgt
  T := fun _ _ => 0
  scale := fun _ _ => 0
  epsilon := fun _ _ => 0
  Ephoton := fun _ _ => 1
  raster_enable := fun _ _ => 0
  scan_period := fun _ _ => 0
  raster_dwell_time := fun _ _ => 0

/-- Errors surfaced by the registry: Python's `ValueError` for a duplicate
connection, `KeyError` for an unregistered light in
`self.subgroup_idx_for_light[light]`, and `AssertionError` for the replay
postcondition of `init_register_light`. -/
inductive RegError where
  | duplicateConnection (light ldd ng : Nat)
  | missingLight (light : Nat)
  | assertionFailed
  deriving DecidableEq

/-- State of `DeviceInteractionRegistry`.  `light_source_ng` is the single
growable container of `Irr0` values (`none` until the first light is
registered); slices are `(start, stop)` index pairs. -/
structure DeviceInteractionRegistry where
  subgroup_idx_for_light : List (Nat × Nat × Nat)
  light_source_ng : Option (List ℚ)
  ldds_for_ng : List (Nat × List Nat)
  lights_for_ng : List (Nat × List Nat)
  light_prop_syns : List ((Nat × Nat) × Syn)
  connections : List (Nat × Nat × Nat)
  raster_fov : ℚ
  raster_enable : ℚ

abbrev Registry := DeviceInteractionRegistry

/-- Association-list lookup (Python dict read). -/
def alookup {κ α : Type} [DecidableEq κ] : List (κ × α) → κ → Option α
  | [], _ => none
  | (k, v) :: t, k' => if k' = k then some v else alookup t k'

/-- Association-list overwrite (Python dict assignment). -/
def upsert {κ α : Type} [DecidableEq κ] : List (κ × α) → κ → α → List (κ × α)
  | [], k, v => [(k, v)]
  | (k', v') :: t, k, v => if k' = k then (k, v) :: t else (k', v') :: upsert t k v

/-- Python set insertion for the `connections` set. -/
def addCxn (l : List (Nat × Nat × Nat)) (t : Nat × Nat × Nat) : List (Nat × Nat × Nat) :=
  if t ∈ l then l else t :: l

/-- Python set insertion for the membership maps. -/
def addToSet (xs : List Nat) (x : Nat) : List Nat :=
  if x ∈ xs then xs else x :: xs

/-- `Irr0_prev`: the contents of the light-source container (`[]` when not
yet created), as read at the top of `init_register_light`. -/
def prevIrr (st : Registry) : List ℚ :=
  match st.light_source_ng with
  | some v => v
  | none => []

/-- `len(self.light_source_ng)` (0 when not yet created). -/
def containerLen (st : Registry) : Nat :=
  (prevIrr st).length

/-- A fresh `DeviceInteractionRegistry(sim)`: empty maps, no light-source
container, `raster_fov = 500 * 1e-6 * meter` (i.e. `1/2000` m) and
`raster_enable = 0`. -/
def initState : Registry where
  subgroup_idx_for_light := []
  light_source_ng := none
  ldds_for_ng := []
  lights_for_ng := []
  light_prop_syns := []
  connections := []
  raster_fov := 1 / 2000
  raster_enable := 0

/-- Planck constant, SI magnitude of `6.63e-34 * meter2 * kgram / second`. -/
def hPlanck : ℚ := 663 / 10 ^ 36

/-- Speed of light, SI magnitude of `2.998e8 * meter / second`. -/
def cLight : ℚ := 2998 * 10 ^ 5

/-- `DeviceInteractionRegistry._get_or_create_light_prop_syn`: look up the
coupling structure for `(ldd, ng)`; when absent create a fresh one from the
current light-source container, set `Ephoton = 1 * joule` on every edge,
and store it.  Returns the structure together with the updated registry. -/
def get_or_create_light_prop_syn (st : Registry) (ldd ng : Nat) (nTgt : Nat) :
    Syn × Registry :=
  match alookup st.light_prop_syns (ldd, ng) with
  | some syn => (syn, st)
  | none =>
    let syn := freshSyn (containerLen st) nTgt
    (syn, { st with light_prop_syns := upsert st.light_prop_syns (ldd, ng) syn })

/-- `second / light.scan_freq`, written to `scan_period` on every edge. -/
def connScanPeriod (env : Env) (light : Nat) : ℚ :=
  1 / env.lightScanFreq light

/-- `(pi * 10**-10 * meter2) / (pi * (raster_fov/2)**2) * second / scan_freq`
(the `pi` factors cancel), written to `raster_dwell_time` on every edge. -/
def connDwell (env : Env) (st : Registry) (light : Nat) : ℚ :=
  (1 / 10 ^ 10) / ((st.raster_fov / 2) ^ 2) * connScanPeriod env light

/-- `1 + (dt > dwell).astype(int) * (dt / dwell - 1)`, written to `scale` on
every edge. -/
def connScale (env : Env) (st : Registry) (light : Nat) : ℚ :=
  1 + (if connDwell env st light < env.dt then (1 : ℚ) else 0)
    * (env.dt / connDwell env st light - 1)

/-- `Ephoton = h * c / lambda`, written on the light's slice. -/
def connEphoton (env : Env) (light : Nat) : ℚ :=
  hPlanck * cLight / env.lightWavelength light

/-- The write block of `connect_light_to_ldd_for_ng` (lines 117-132 of
`registry.py`): `epsilon`, `T` and `Ephoton` are written only on the rows
`i_source = slice(a, b)` of the light's slice; `scan_period`,
`raster_dwell_time`, `scale` and `raster_enable` are assigned without a
slice, i.e. on every edge of the structure.  Finally the triple is added to
`connections`. -/
def connectWrite (env : Env) (st1 : Registry) (syn : Syn) (light ldd ng a b : Nat)
    (eps : ℚ) : Registry :=
  let syn' : Syn :=
    { syn with
      epsilon := fun i j => if a ≤ i ∧ i < b then eps else syn.epsilon i j
      T := fun i j => if a ≤ i ∧ i < b then env.lightT light ng (i - a) j else syn.T i j
      scan_period := fun _ _ => connScanPeriod env light
      raster_dwell_time := fun _ _ => connDwell env st1 light
      scale := fun _ _ => connScale env st1 light
      raster_enable := fun _ _ => st1.raster_enable
      Ephoton := fun i j =>
        if a ≤ i ∧ i < b then connEphoton env light else syn.Ephoton i j }
  { st1 with
    light_prop_syns := upsert st1.light_prop_syns (ldd, ng) syn'
    connections := addCxn st1.connections (light, ldd, ng) }

/-- `DeviceInteractionRegistry.connect_light_to_ldd_for_ng`.  Mirrors the
source order: epsilon test (zero-sensitivity connects return immediately),
get-or-create of the coupling structure, duplicate check, slice lookup,
then the per-edge writes of `connectWrite`. -/
def connect_light_to_ldd_for_ng (env : Env) (st : Registry) (light ldd ng : Nat) :
    Except RegError Registry :=
  let eps := env.ldd_epsilon ldd (env.lightWavelength light)
  if eps = 0 then .ok st
  else
    let syn := (get_or_create_light_prop_syn st ldd ng (env.ngSize ng)).1
    let st1 := (get_or_create_light_prop_syn st ldd ng (env.ngSize ng)).2
    if (light, ldd, ng) ∈ st1.connections then
      .error (.duplicateConnection light ldd ng)
    else
      match alookup st1.subgroup_idx_for_light light with
      | none => .error (.missingLight light)
      | some (a, b) => .ok (connectWrite env st1 syn light ldd ng a b eps)

/-- The `for light, ldd, ng in prev_cxns: self.connect_light_to_ldd_for_ng(...)`
loop; an exception in one iteration propagates. -/
def replay (env : Env) : List (Nat × Nat × Nat) → Registry → Except RegError Registry
  | [], st => .ok st
  | (l, d, g) :: ts, st =>
    match connect_light_to_ldd_for_ng env st l d g with
    | .error e => .error e
    | .ok st' => replay env ts st'

/-- The container rebuild performed by `init_register_light` before the
replay: a new light-source group of `n_prev + light.n` elements whose
`Irr0` values default to `0`, the previous values copied into the `[:n_prev]`
prefix, the light's slice assigned at the tail, and all existing
`light_prop_syns` discarded; `connections` is cleared (its previous contents
are replayed afterwards). -/
def rebuiltState (env : Env) (st : Registry) (light : Nat) : Registry :=
  { st with
    light_source_ng := some (prevIrr st ++ List.replicate (env.lightN light) 0)
    subgroup_idx_for_light :=
      upsert st.subgroup_idx_for_light light
        (containerLen st, containerLen st + env.lightN light)
    connections := []
    light_prop_syns := [] }

/-- `DeviceInteractionRegistry.init_register_light`: rebuild the light-source
container (copy the previous `Irr0` values forward, extend by `light.n`
zero-initialized elements), give the light the tail slice, discard all
coupling structures, clear the connection set and replay every previous
connection, finally `assert prev_cxns == self.connections`. -/
def init_register_light (env : Env) (st : Registry) (light : Nat) :
    Except RegError Registry :=
  match replay env st.connections (rebuiltState env st light) with
  | .error e => .error e
  | .ok st2 =>
    if (∀ t ∈ st.connections, t ∈ st2.connections) ∧
        (∀ t ∈ st2.connections, t ∈ st.connections) then .ok st2
    else .error .assertionFailed

/-- `DeviceInteractionRegistry.register_light`: record the light's membership
in `lights_for_ng[ng]`, then connect it to every LDD already injected into
the group. -/
def register_light (env : Env) (st : Registry) (light ng : Nat) :
    Except RegError Registry :=
  let prevLdds := (alookup st.ldds_for_ng ng).getD []
  let st1 :=
    { st with lights_for_ng :=
        upsert st.lights_for_ng ng (addToSet ((alookup st.lights_for_ng ng).getD []) light) }
  replay env (prevLdds.map fun d => (light, d, ng)) st1

/-- `DeviceInteractionRegistry.register_ldd`: record the LDD's membership in
`ldds_for_ng[ng]`, then connect every light already injected into the group
to it. -/
def register_ldd (env : Env) (st : Registry) (ldd ng : Nat) :
    Except RegError Registry :=
  let prevLights := (alookup st.lights_for_ng ng).getD []
  let st1 :=
    { st with ldds_for_ng :=
        upsert st.ldds_for_ng ng (addToSet ((alookup st.ldds_for_ng ng).getD []) ldd) }
  replay env (prevLights.map fun l => (l, ldd, ng)) st1

/-- `DeviceInteractionRegistry.update_fov`: always set `raster_enable = 1`;
when the stored `raster_fov` differs from the new value, store the new value
and emit one `UserWarning`.  The second component counts the warnings the
call emits. -/
def update_fov (st : Registry) (new_fov : ℚ) : Registry × Nat :=
  let st1 := { st with raster_enable := 1 }
  if st1.raster_fov = new_fov then (st1, 0)
  else ({ st1 with raster_fov := new_fov }, 1)

/-- Registry states reachable from a fresh registry by the public operations
(the `update_fov` branch never fails; the other operations contribute a step
only when they do not raise). -/
inductive Reachable (env : Env) : Registry → Prop where
  | init : Reachable env initState
  | initLight {st st' l} : Reachable env st →
      init_register_light env st l = .ok st' → Reachable env st'
  | regLight {st st' l g} : Reachable env st →
      register_light env st l g = .ok st' → Reachable env st'
  | regLdd {st st' d g} : Reachable env st →
      register_ldd env st d g = .ok st' → Reachable env st'
  | connect {st st' l d g} : Reachable env st →
      connect_light_to_ldd_for_ng env st l d g = .ok st' → Reachable env st'
  | fov {st} (f : ℚ) : Reachable env st → Reachable env (update_fov st f).1

/-- Like `Reachable`, but `init_register_light` is only ever invoked on a
light that does not yet have a slice (each light is registered once, as the
surrounding library guarantees). -/
inductive ReachableFresh (env : Env) : Registry → Prop where
  | init : ReachableFresh env initState
  | initLight {st st' l} : ReachableFresh env st →
      alookup st.subgroup_idx_for_light l = none →
      init_register_light env st l = .ok st' → ReachableFresh env st'
  | regLight {st st' l g} : ReachableFresh env st →
      register_light env st l g = .ok st' → ReachableFresh env st'
  | regLdd {st st' d g} : ReachableFresh env st →
      register_ldd env st d g = .ok st' → ReachableFresh env st'
  | connect {st st' l d g} : ReachableFresh env st →
      connect_light_to_ldd_for_ng env st l d g = .ok st' → ReachableFresh env st'
  | fov {st} (f : ℚ) : ReachableFresh env st → ReachableFresh env (update_fov st f).1

/-! ## Slice-partition predicates (spec: "slices are disjoint and exactly
partition the currently allocated range") -/

/-- Index `i` lies in the slice of map entry `p = (light, start, stop)`. -/
def sliceCovers (p : Nat × Nat × Nat) (i : Nat) : Prop :=
  p.2.1 ≤ i ∧ i < p.2.2

/-- The slices of any two distinct registered lights are disjoint. -/
def slicesDisjoint (st : Registry) : Prop :=
  ∀ p ∈ st.subgroup_idx_for_light, ∀ q ∈ st.subgroup_idx_for_light,
    p.1 ≠ q.1 → ∀ i, ¬(sliceCovers p i ∧ sliceCovers q i)

/-- Each slice stays inside the allocated range and every allocated index is
covered by some registered light's slice. -/
def slicesCover (st : Registry) : Prop :=
  (∀ p ∈ st.subgroup_idx_for_light, p.2.2 ≤ containerLen st) ∧
    ∀ i, i < containerLen st → ∃ p ∈ st.subgroup_idx_for_light, sliceCovers p i

/-- The slices in the map, in list order, are consecutive starting at `a`
(each slice begins where the previous one ended). -/
def consecFrom : Nat → List (Nat × Nat × Nat) → Prop
  | _, [] => True
  | a, p :: t => p.2.1 = a ∧ a ≤ p.2.2 ∧ consecFrom p.2.2 t

/-- Where the last slice of the map ends (`a` when the map is empty). -/
def endAt : Nat → List (Nat × Nat × Nat) → Nat
  | a, [] => a
  | _, p :: t => endAt p.2.2 t

/-- Strong slice invariant: slices are consecutive from 0 and end exactly at
the allocated length. -/
def SlicesOK (st : Registry) : Prop :=
  consecFrom 0 st.subgroup_idx_for_light ∧
    endAt 0 st.subgroup_idx_for_light = containerLen st

/-! ## Concrete fixtures used by witnesses and counterexamples -/

/-- A small device environment: every light has one source element,
wavelength 473 nm and scan frequency `l + 1` Hz (light 0 scans at 1 Hz,
light 1 at 2 Hz); LDD 0 has sensitivity 1 at every wavelength while every
other LDD has sensitivity 0; every neuron group has one neuron;
`defaultclock.dt = 0.1 ms`. -/
def env0 : Env where
  lightN := fun _ => 1
  lightWavelength := fun _ => 473 / 10 ^ 9
  lightScanFreq := fun l => (l : ℚ) + 1
  lightT := fun _ _ _ _ => 1 / 2
  ldd_epsilon := fun d _ => if d = 0 then 1 else 0
  ngSize := fun _ => 1
  dt := 1 / 10000

/-- Extract the state of a successful registry operation. -/
def getOk (e : Except RegError Registry) : Registry :=
  match e with
  | .ok st => st
  | .error _ => initState

/-- Fresh registry after registering light 0. -/
def stA : Registry := getOk (init_register_light env0 initState 0)

/-- ... then registering light 1. -/
def stB : Registry := getOk (init_register_light env0 stA 1)

/-- ... then connecting (light 0, LDD 0, group 0). -/
def stC : Registry := getOk (connect_light_to_ldd_for_ng env0 stB 0 0 0)

/-- ... then connecting (light 1, LDD 0, group 0). -/
def stD : Registry := getOk (connect_light_to_ldd_for_ng env0 stC 1 0 0)

/-- The coupling structure for (LDD 0, group 0) after the first connect. -/
def synC : Syn := (alookup stC.light_prop_syns (0, 0)).getD (freshSyn 0 0)

/-- The coupling structure for (LDD 0, group 0) after the second connect. -/
def synD : Syn := (alookup stD.light_prop_syns (0, 0)).getD (freshSyn 0 0)

/-- Registering the same light twice: light 0 re-registered on top of `stA`. -/
def stDup : Registry := getOk (init_register_light env0 stA 0)

end CleoRegistry

namespace CleoOpto

/-! ## The Foutz et al. 2012 transmittance model
(`OptogeneticIntervention._Foutz12_transmittance` in `src/cleosim/opto.py`),
embedded over `ℝ` with units stripped to SI magnitudes. -/

/-- The `light_model_params` entries the transmittance model reads:
optical fiber radius `R0`, fiber numerical aperture `NAfib`, tissue index of
refraction `ntis`, absorbance coefficient `K`, scattering coefficient `S`. -/
structure LightModelParams where
  R0 : ℝ
  NAfib : ℝ
  ntis : ℝ
  K : ℝ
  S : ℝ

/-- Divergence half-angle of the light cone,
`theta_div = arcsin(NAfib / ntis)`. -/
noncomputable def theta_div (p : LightModelParams) : ℝ :=
  Real.arcsin (p.NAfib / p.ntis)

/-- The apparent radius `Rz = R0 + z * tan(theta_div)` under `spread`. -/
noncomputable def apparent_radius (p : LightModelParams) (z : ℝ) : ℝ :=
  p.R0 + z * Real.tan (theta_div p)

/-- `b = sqrt(a^2 - 1)` with `a = 1 + K/S`. -/
noncomputable def km_b (p : LightModelParams) : ℝ :=
  Real.sqrt ((1 + p.K / p.S) ^ 2 - 1)

/-- The denominator `a*sinh(b*S*dist) + b*cosh(b*S*dist)` of the
Kubelka-Munk factor. -/
noncomputable def km_denom (p : LightModelParams) (dist : ℝ) : ℝ :=
  (1 + p.K / p.S) * Real.sinh (km_b p * p.S * dist) +
    km_b p * Real.cosh (km_b p * p.S * dist)

/-- Kubelka-Munk propagation factor
`b / (a*sinh(b*S*dist) + b*cosh(b*S*dist))` with `a = 1 + K/S` and
`b = sqrt(a^2 - 1)`. -/
noncomputable def kubelka_munk (p : LightModelParams) (dist : ℝ) : ℝ :=
  km_b p / km_denom p dist

/-- `_Foutz12_transmittance(r, z, scatter, spread, gaussian)`: Gaussian cone
with Kubelka-Munk propagation, `T = G * C * M` where
`C = (R0/Rz)^2` under `spread` (else 1),
`G = 1/sqrt(2*pi) * exp(-2*(r/Rz)^2)` under `gaussian` (else 1), and
`M = kubelka_munk(sqrt(r^2 + z^2))` under `scatter` (else 1). -/
noncomputable def Foutz12_transmittance (p : LightModelParams) (r z : ℝ)
    (scatter spread gaussian : Bool) : ℝ :=
  let Rz := if spread then apparent_radius p z else p.R0
  let C := if spread then (p.R0 / Rz) ^ 2 else 1
  let G := if gaussian then
    1 / Real.sqrt (2 * Real.pi) * Real.exp (-2 * (r / Rz) ^ 2) else 1
  let M := if scatter then kubelka_munk p (Real.sqrt (r ^ 2 + z ^ 2)) else 1
  G * C * M

/-- The `default_blue` light parameters (473 nm fiber light, Foutz et al.
2012), in SI magnitudes: `R0 = 0.1 mm`, `NAfib = 0.37`, `ntis = 1.36`,
`K = 0.125/mm`, `S = 7.37/mm`. -/
noncomputable def default_blue : LightModelParams where
  R0 := 1 / 10 ^ 4
  NAfib := 37 / 100
  ntis := 136 / 100
  K := 125
  S := 7370

/-- A valid parameter set (divergence ratio 3/5, so `tan(theta_div) = 3/4`;
`a = 5/4`, `b = 3/4`) on which axial monotonicity of the transmittance
fails. -/
noncomputable def pCE : LightModelParams where
  R0 := 1
  NAfib := 3 / 5
  ntis := 1
  K := 1 / 40
  S := 1 / 10

end CleoOpto

namespace CleoRegistry

/-! ## Association-list lemmas -/

theorem alookup_upsert {κ α : Type} [DecidableEq κ] (m : List (κ × α)) (k : κ) (v : α)
    (k' : κ) : alookup (upsert m k v) k' = if k' = k then some v else alookup m k' := by
  induction m with
  | nil => simp [upsert, alookup]
  | cons h t ih =>
    obtain ⟨hk, hv⟩ := h
    by_cases hkk : hk = k
    · subst hkk
      by_cases hk' : k' = hk <;> simp [upsert, alookup, hk']
    · by_cases hk' : k' = hk
      · subst hk'
        simp [upsert, alookup, hkk, Ne.symm hkk]
      · simp [upsert, alookup, hkk, hk', ih]

theorem alookup_upsert_self {κ α : Type} [DecidableEq κ] (m : List (κ × α)) (k : κ)
    (v : α) : alookup (upsert m k v) k = some v := by
  simp [alookup_upsert]

theorem upsert_of_alookup_none {κ α : Type} [DecidableEq κ] (m : List (κ × α)) (k : κ)
    (v : α) (h : alookup m k = none) : upsert m k v = m ++ [(k, v)] := by
  induction m with
  | nil => simp [upsert]
  | cons hd t ih =>
    obtain ⟨hk, hv⟩ := hd
    by_cases hkk : hk = k
    · subst hkk
      simp [alookup] at h
    · rw [alookup, if_neg (fun hc => hkk hc.symm)] at h
      simp [upsert, hkk, ih h]

/-! ## Projections of the registry operations -/

theorem get_or_create_proj (st : Registry) (d g n : Nat) :
    (get_or_create_light_prop_syn st d g n).2.subgroup_idx_for_light
        = st.subgroup_idx_for_light ∧
      (get_or_create_light_prop_syn st d g n).2.light_source_ng = st.light_source_ng ∧
      (get_or_create_light_prop_syn st d g n).2.connections = st.connections ∧
      (get_or_create_light_prop_syn st d g n).2.raster_fov = st.raster_fov ∧
      (get_or_create_light_prop_syn st d g n).2.raster_enable = st.raster_enable ∧
      (get_or_create_light_prop_syn st d g n).2.lights_for_ng = st.lights_for_ng ∧
      (get_or_create_light_prop_syn st d g n).2.ldds_for_ng = st.ldds_for_ng := by
  unfold get_or_create_light_prop_syn
  cases alookup st.light_prop_syns (d, g) <;> simp

/-- Inversion of a successful `connect_light_to_ldd_for_ng`: either the
sensitivity was zero and the state is untouched, or the sensitivity was
nonzero, the triple was new, the light had a slice, and the result is the
corresponding `connectWrite`. -/
theorem connect_ok_cases (env : Env) (st : Registry) (l d g : Nat) (st' : Registry)
    (hok : connect_light_to_ldd_for_ng env st l d g = .ok st') :
    (env.ldd_epsilon d (env.lightWavelength l) = 0 ∧ st' = st) ∨
      (env.ldd_epsilon d (env.lightWavelength l) ≠ 0 ∧ (l, d, g) ∉ st.connections ∧
        ∃ a b, alookup st.subgroup_idx_for_light l = some (a, b) ∧
          st' = connectWrite env (get_or_create_light_prop_syn st d g (env.ngSize g)).2
            (get_or_create_light_prop_syn st d g (env.ngSize g)).1 l d g a b
            (env.ldd_epsilon d (env.lightWavelength l))) := by
  obtain ⟨hsub, hsrc, hconn, hfov, hen, hlng, hdng⟩ := get_or_create_proj st d g (env.ngSize g)
  unfold connect_light_to_ldd_for_ng at hok
  by_cases hε : env.ldd_epsilon d (env.lightWavelength l) = 0
  · rw [if_pos hε] at hok
    exact Or.inl ⟨hε, (Except.ok.injEq _ _).mp hok.symm⟩
  · rw [if_neg hε] at hok
    by_cases hmem : (l, d, g) ∈
        (get_or_create_light_prop_syn st d g (env.ngSize g)).2.connections
    · rw [if_pos hmem] at hok
      exact absurd hok (by simp)
    · rw [if_neg hmem] at hok
      rw [hconn] at hmem
      refine Or.inr ⟨hε, hmem, ?_⟩
      rcases hlk : alookup
          (get_or_create_light_prop_syn st d g (env.ngSize g)).2.subgroup_idx_for_light l
        with _ | ⟨a, b⟩
      · rw [hlk] at hok
        exact absurd hok (by simp)
      · rw [hlk] at hok
        rw [hsub] at hlk
        exact ⟨a, b, hlk, ((Except.ok.injEq _ _).mp hok).symm⟩

/-- A successful `connect_light_to_ldd_for_ng` with nonzero sensitivity:
explicit form of the result. -/
theorem connect_ok_explicit (env : Env) (st : Registry) (l d g a b : Nat)
    (hε : env.ldd_epsilon d (env.lightWavelength l) ≠ 0)
    (hnot : (l, d, g) ∉ st.connections)
    (hslice : alookup st.subgroup_idx_for_light l = some (a, b)) :
    connect_light_to_ldd_for_ng env st l d g =
      .ok (connectWrite env (get_or_create_light_prop_syn st d g (env.ngSize g)).2
        (get_or_create_light_prop_syn st d g (env.ngSize g)).1 l d g a b
        (env.ldd_epsilon d (env.lightWavelength l))) := by
  obtain ⟨hsub, hsrc, hconn, hfov, hen, hlng, hdng⟩ := get_or_create_proj st d g (env.ngSize g)
  unfold connect_light_to_ldd_for_ng
  rw [if_neg hε, if_neg (by rw [hconn]; exact hnot), hsub, hslice]

/-- The top-level fields a `connectWrite` keeps or changes. -/
theorem connectWrite_proj (env : Env) (st1 : Registry) (syn : Syn)
    (l d g a b : Nat) (eps : ℚ) :
    (connectWrite env st1 syn l d g a b eps).subgroup_idx_for_light
        = st1.subgroup_idx_for_light ∧
      (connectWrite env st1 syn l d g a b eps).light_source_ng = st1.light_source_ng ∧
      (connectWrite env st1 syn l d g a b eps).connections
        = addCxn st1.connections (l, d, g) ∧
      (connectWrite env st1 syn l d g a b eps).raster_fov = st1.raster_fov ∧
      (connectWrite env st1 syn l d g a b eps).raster_enable = st1.raster_enable ∧
      (connectWrite env st1 syn l d g a b eps).lights_for_ng = st1.lights_for_ng ∧
      (connectWrite env st1 syn l d g a b eps).ldds_for_ng = st1.ldds_for_ng := by
  unfold connectWrite
  simp

/-- Top-level projections of any successful connect: everything except the
coupling structures and the connection set is untouched, and the connection
set either stays or gains exactly the new triple (which then satisfies the
sensitivity and slice conditions). -/
theorem connect_ok_proj (env : Env) (st : Registry) (l d g : Nat) (st' : Registry)
    (hok : connect_light_to_ldd_for_ng env st l d g = .ok st') :
    st'.subgroup_idx_for_light = st.subgroup_idx_for_light ∧
      st'.light_source_ng = st.light_source_ng ∧
      st'.raster_fov = st.raster_fov ∧ st'.raster_enable = st.raster_enable ∧
      st'.lights_for_ng = st.lights_for_ng ∧ st'.ldds_for_ng = st.ldds_for_ng ∧
      (st'.connections = st.connections ∨
        (st'.connections = (l, d, g) :: st.connections ∧
          env.ldd_epsilon d (env.lightWavelength l) ≠ 0 ∧
          (l, d, g) ∉ st.connections ∧
          ∃ a b, alookup st.subgroup_idx_for_light l = some (a, b))) := by
  obtain ⟨hsub, hsrc, hconn, hfov, hen, hlng, hdng⟩ := get_or_create_proj st d g (env.ngSize g)
  rcases connect_ok_cases env st l d g st' hok with ⟨_, rfl⟩ | ⟨hε, hnot, a, b, hslice, rfl⟩
  · exact ⟨rfl, rfl, rfl, rfl, rfl, rfl, Or.inl rfl⟩
  · obtain ⟨wsub, wsrc, wconn, wfov, wen, wlng, wdng⟩ :=
      connectWrite_proj env (get_or_create_light_prop_syn st d g (env.ngSize g)).2
        (get_or_create_light_prop_syn st d g (env.ngSize g)).1 l d g a b
        (env.ldd_epsilon d (env.lightWavelength l))
    refine ⟨wsub.trans hsub, wsrc.trans hsrc, wfov.trans hfov, wen.trans hen,
      wlng.trans hlng, wdng.trans hdng, Or.inr ⟨?_, hε, hnot, a, b, hslice⟩⟩
    rw [wconn, hconn, addCxn, if_neg hnot]

/-! ## Replay lemmas -/

/-- A successful replay never touches the slice map, the light-source
container, the raster parameters or the membership maps. -/
theorem replay_proj (env : Env) (lst : List (Nat × Nat × Nat)) (st st' : Registry)
    (h : replay env lst st = .ok st') :
    st'.subgroup_idx_for_light = st.subgroup_idx_for_light ∧
      st'.light_source_ng = st.light_source_ng ∧
      st'.raster_fov = st.raster_fov ∧ st'.raster_enable = st.raster_enable ∧
      st'.lights_for_ng = st.lights_for_ng ∧ st'.ldds_for_ng = st.ldds_for_ng := by
  induction lst generalizing st with
  | nil =>
    rw [replay] at h
    obtain rfl := (Except.ok.injEq _ _).mp h
    exact ⟨rfl, rfl, rfl, rfl, rfl, rfl⟩
  | cons t ts ih =>
    obtain ⟨l, d, g⟩ := t
    rw [replay] at h
    rcases hc : connect_light_to_ldd_for_ng env st l d g with e | st1
    · rw [hc] at h; exact absurd h (by simp)
    · rw [hc] at h
      obtain ⟨s1, s2, s3, s4, s5, s6⟩ := connect_ok_proj env st l d g st1 hc
      obtain ⟨r1, r2, r3, r4, r5, r6⟩ := ih st1 h
      exact ⟨r1.trans s1, r2.trans s2, r3.trans s3, r4.trans s4, r5.trans s5,
        r6.trans s6.1⟩

/-- A successful replay preserves duplicate-freedom of the connection set. -/
theorem replay_nodup (env : Env) (lst : List (Nat × Nat × Nat)) (st st' : Registry)
    (h : replay env lst st = .ok st') (hnd : st.connections.Nodup) :
    st'.connections.Nodup := by
  induction lst generalizing st with
  | nil =>
    rw [replay] at h
    obtain rfl := (Except.ok.injEq _ _).mp h
    exact hnd
  | cons t ts ih =>
    obtain ⟨l, d, g⟩ := t
    rw [replay] at h
    rcases hc : connect_light_to_ldd_for_ng env st l d g with e | st1
    · rw [hc] at h; exact absurd h (by simp)
    · rw [hc] at h
      obtain ⟨-, -, -, -, -, -, hcase⟩ := connect_ok_proj env st l d g st1 hc
      refine ih st1 h ?_
      rcases hcase with heq | ⟨heq, -, hmem, -⟩
      · rw [heq]; exact hnd
      · rw [heq]; exact List.Nodup.cons hmem hnd

/-- Constructive replay: when every triple in the list has nonzero
sensitivity, a registered light, is not yet connected, and the list has no
duplicates, the replay succeeds and produces exactly the listed connections
on top of the existing ones. -/
theorem replay_spec (env : Env) (lst : List (Nat × Nat × Nat)) (st : Registry)
    (h1 : ∀ t ∈ lst, env.ldd_epsilon t.2.1 (env.lightWavelength t.1) ≠ 0)
    (h2 : ∀ t ∈ lst, ∃ a b, alookup st.subgroup_idx_for_light t.1 = some (a, b))
    (h3 : lst.Nodup) (h4 : ∀ t ∈ lst, t ∉ st.connections) :
    ∃ st', replay env lst st = .ok st' ∧
      st'.connections = lst.reverse ++ st.connections ∧
      st'.subgroup_idx_for_light = st.subgroup_idx_for_light ∧
      st'.light_source_ng = st.light_source_ng ∧
      st'.raster_fov = st.raster_fov ∧ st'.raster_enable = st.raster_enable ∧
      st'.lights_for_ng = st.lights_for_ng ∧ st'.ldds_for_ng = st.ldds_for_ng := by
  induction lst generalizing st with
  | nil =>
    exact ⟨st, rfl, by simp, rfl, rfl, rfl, rfl, rfl, rfl⟩
  | cons t ts ih =>
    obtain ⟨l, d, g⟩ := t
    have hmemhd : ((l, d, g) : Nat × Nat × Nat) ∈ (l, d, g) :: ts := List.mem_cons_self _ _
    obtain ⟨a, b, hslice⟩ := h2 (l, d, g) hmemhd
    have hε := h1 (l, d, g) hmemhd
    have hnot := h4 (l, d, g) hmemhd
    have hok := connect_ok_explicit env st l d g a b hε hnot hslice
    set st1 := connectWrite env (get_or_create_light_prop_syn st d g (env.ngSize g)).2
      (get_or_create_light_prop_syn st d g (env.ngSize g)).1 l d g a b
      (env.ldd_epsilon d (env.lightWavelength l)) with hst1
    obtain ⟨gsub, gsrc, gconn, gfov, gen, glng, gdng⟩ :=
      get_or_create_proj st d g (env.ngSize g)
    obtain ⟨wsub, wsrc, wconn, wfov, wen, wlng, wdng⟩ :=
      connectWrite_proj env (get_or_create_light_prop_syn st d g (env.ngSize g)).2
        (get_or_create_light_prop_syn st d g (env.ngSize g)).1 l d g a b
        (env.ldd_epsilon d (env.lightWavelength l))
    have hconn1 : st1.connections = (l, d, g) :: st.connections := by
      rw [hst1, wconn, gconn, addCxn, if_neg hnot]
    have hsub1 : st1.subgroup_idx_for_light = st.subgroup_idx_for_light :=
      wsub.trans gsub
    have hnd := List.nodup_cons.mp h3
    obtain ⟨st2, hrep, c1, c2, c3, c4, c5, c6, c7⟩ :=
      ih st1
        (fun t ht => h1 t (List.mem_cons_of_mem _ ht))
        (fun t ht => by rw [hsub1]; exact h2 t (List.mem_cons_of_mem _ ht))
        hnd.2
        (fun t ht => by
          rw [hconn1]
          intro hc
          rcases List.mem_cons.mp hc with hc | hc
          · exact hnd.1 (hc ▸ ht)
          · exact h4 t (List.mem_cons_of_mem _ ht) hc)
    refine ⟨st2, ?_, ?_, c2.trans hsub1, c3.trans (wsrc.trans gsrc),
      c4.trans (wfov.trans gfov), c5.trans (wen.trans gen),
      c6.trans (wlng.trans glng), c7.trans (wdng.trans gdng)⟩
    · rw [replay, hok]
      exact hrep
    · rw [c1, hconn1, List.reverse_cons, List.append_assoc, List.singleton_append]

/-- `update_fov` always ends with `raster_enable = 1` and the newest
field-of-view value (last write wins, whether or not it warns). -/
theorem update_fov_fst (st : Registry) (f : ℚ) :
    (update_fov st f).1 = { st with raster_enable := 1, raster_fov := f } := by
  unfold update_fov
  by_cases h : st.raster_fov = f
  · subst h
    simp
  · simp [h]

/-- `update_fov` warns exactly when the stored field-of-view differs from the
new value. -/
theorem update_fov_snd (st : Registry) (f : ℚ) :
    (update_fov st f).2 = if st.raster_fov = f then 0 else 1 := by
  unfold update_fov
  by_cases h : st.raster_fov = f <;> simp [h]

/-! ## The registry invariant -/

/-- Well-formedness of a registry state: every recorded connection has
nonzero sensitivity and a registered light, and the connection set is
duplicate-free (it models a Python `set`). -/
structure WF (env : Env) (st : Registry) : Prop where
  eps_ne : ∀ t ∈ st.connections, env.ldd_epsilon t.2.1 (env.lightWavelength t.1) ≠ 0
  slice_ex : ∀ t ∈ st.connections,
    ∃ a b, alookup st.subgroup_idx_for_light t.1 = some (a, b)
  nodup : st.connections.Nodup

theorem WF_init (env : Env) : WF env initState :=
  ⟨fun t ht => absurd ht (List.not_mem_nil t), fun t ht => absurd ht (List.not_mem_nil t),
    List.nodup_nil⟩

theorem connect_WF (env : Env) (st : Registry) (l d g : Nat) (st' : Registry)
    (hok : connect_light_to_ldd_for_ng env st l d g = .ok st') (hwf : WF env st) :
    WF env st' := by
  obtain ⟨p1, p2, p3, p4, p5, p6, p7⟩ := connect_ok_proj env st l d g st' hok
  rcases p7 with heq | ⟨heq, hε, hnot, a, b, hslice⟩
  · exact ⟨fun t ht => hwf.eps_ne t (heq ▸ ht),
      fun t ht => p1 ▸ hwf.slice_ex t (heq ▸ ht), heq ▸ hwf.nodup⟩
  · refine ⟨fun t ht => ?_, fun t ht => ?_, ?_⟩
    · rcases List.mem_cons.mp (heq ▸ ht) with rfl | ht'
      · exact hε
      · exact hwf.eps_ne t ht'
    · rw [p1]
      rcases List.mem_cons.mp (heq ▸ ht) with rfl | ht'
      · exact ⟨a, b, hslice⟩
      · exact hwf.slice_ex t ht'
    · rw [heq]
      exact List.Nodup.cons hnot hwf.nodup

theorem replay_WF (env : Env) (lst : List (Nat × Nat × Nat)) (st st' : Registry)
    (h : replay env lst st = .ok st') (hwf : WF env st) : WF env st' := by
  induction lst generalizing st with
  | nil =>
    rw [replay] at h
    obtain rfl := (Except.ok.injEq _ _).mp h
    exact hwf
  | cons t ts ih =>
    obtain ⟨l, d, g⟩ := t
    rw [replay] at h
    rcases hc : connect_light_to_ldd_for_ng env st l d g with e | st1
    · rw [hc] at h; exact absurd h (by simp)
    · rw [hc] at h
      exact ih st1 h (connect_WF env st l d g st1 hc hwf)

theorem rebuiltState_WF (env : Env) (st : Registry) (l : Nat) :
    WF env (rebuiltState env st l) :=
  ⟨fun t ht => absurd ht (List.not_mem_nil t),
    fun t ht => absurd ht (List.not_mem_nil t), List.nodup_nil⟩

theorem init_register_light_WF (env : Env) (st : Registry) (l : Nat) (st' : Registry)
    (hok : init_register_light env st l = .ok st') (_hwf : WF env st) : WF env st' := by
  unfold init_register_light at hok
  rcases hrep : replay env st.connections (rebuiltState env st l) with e | st2
  · simp only [hrep] at hok
    exact absurd hok (by simp)
  · simp only [hrep] at hok
    split at hok
    · obtain rfl := (Except.ok.injEq _ _).mp hok
      exact replay_WF env st.connections _ st2 hrep (rebuiltState_WF env st l)
    · exact absurd hok (by simp)

theorem Reachable_WF (env : Env) (st : Registry) (h : Reachable env st) : WF env st := by
  induction h with
  | init => exact WF_init env
  | initLight hr hok ih => exact init_register_light_WF env _ _ _ hok ih
  | regLight hr hok ih =>
    refine replay_WF env _ _ _ hok ⟨fun t ht => ih.eps_ne t ht,
      fun t ht => ih.slice_ex t ht, ih.nodup⟩
  | regLdd hr hok ih =>
    refine replay_WF env _ _ _ hok ⟨fun t ht => ih.eps_ne t ht,
      fun t ht => ih.slice_ex t ht, ih.nodup⟩
  | connect hr hok ih => exact connect_WF env _ _ _ _ _ hok ih
  | fov f hr ih =>
    rw [update_fov_fst]
    exact ⟨fun t ht => ih.eps_ne t ht, fun t ht => ih.slice_ex t ht, ih.nodup⟩

/-! ## `init_register_light` -/

/-- Structural effect of any successful `init_register_light`, regardless of
how the state arose: container extended by `light.n` zeros with the old
values copied forward, the light's slice assigned at the tail, the raster
parameters and membership maps untouched. -/
theorem init_register_light_ok_proj (env : Env) (st : Registry) (l : Nat)
    (st' : Registry) (hok : init_register_light env st l = .ok st') :
    st'.light_source_ng = some (prevIrr st ++ List.replicate (env.lightN l) 0) ∧
      st'.subgroup_idx_for_light =
        upsert st.subgroup_idx_for_light l
          (containerLen st, containerLen st + env.lightN l) ∧
      st'.raster_fov = st.raster_fov ∧ st'.raster_enable = st.raster_enable ∧
      st'.lights_for_ng = st.lights_for_ng ∧ st'.ldds_for_ng = st.ldds_for_ng := by
  unfold init_register_light at hok
  rcases hrep : replay env st.connections (rebuiltState env st l) with e | st2
  · simp only [hrep] at hok
    exact absurd hok (by simp)
  · simp only [hrep] at hok
    split at hok
    · obtain rfl := (Except.ok.injEq _ _).mp hok
      obtain ⟨r1, r2, r3, r4, r5, r6⟩ := replay_proj env st.connections _ st2 hrep
      exact ⟨r2, r1, r3, r4, r5, r6⟩
    · exact absurd hok (by simp)

/-- On a well-formed state, `init_register_light` succeeds (in particular the
replay raises no error and the `assert prev_cxns == self.connections`
holds), and the replayed connection list is the reversal of the previous
one. -/
theorem init_register_light_spec (env : Env) (st : Registry) (l : Nat)
    (hwf : WF env st) :
    ∃ st', init_register_light env st l = .ok st' ∧
      st'.connections = st.connections.reverse := by
  obtain ⟨st2, hrep, hconn, -⟩ :=
    replay_spec env st.connections (rebuiltState env st l)
      (fun t ht => hwf.eps_ne t ht)
      (fun t ht => by
        obtain ⟨a, b, hl⟩ := hwf.slice_ex t ht
        show ∃ a b, alookup (upsert st.subgroup_idx_for_light l
          (containerLen st, containerLen st + env.lightN l)) t.1 = some (a, b)
        rw [alookup_upsert]
        by_cases hteq : t.1 = l
        · exact ⟨containerLen st, containerLen st + env.lightN l, by rw [if_pos hteq]⟩
        · exact ⟨a, b, by rw [if_neg hteq]; exact hl⟩)
      hwf.nodup
      (fun t ht => List.not_mem_nil t)
  have hconn2 : st2.connections = st.connections.reverse := by
    rw [hconn]
    show st.connections.reverse ++ ([] : List (Nat × Nat × Nat)) = _
    exact List.append_nil _
  refine ⟨st2, ?_, hconn2⟩
  unfold init_register_light
  simp only [hrep]
  rw [if_pos]
  constructor
  · intro t ht
    rw [hconn2, List.mem_reverse]
    exact ht
  · intro t ht
    rw [hconn2, List.mem_reverse] at ht
    exact ht

/-- C1: for every reachable registry state, registering a new light source
(which rebuilds the light-source container, discards all coupling
structures, and replays all prior triples through connect) succeeds and
leaves the connection set set-equal to the connection set immediately
before the registration: no (light, LDD, group) triple is lost or gained by
the rebuild. -/
theorem init_register_light_preserves_connection_set (env : Env) (st : Registry)
    (light : Nat) (h : Reachable env st) :
    ∃ st', init_register_light env st light = .ok st' ∧
      ∀ t, t ∈ st'.connections ↔ t ∈ st.connections := by
  obtain ⟨st', hok, hconn⟩ :=
    init_register_light_spec env st light (Reachable_WF env st h)
  exact ⟨st', hok, fun t => by rw [hconn, List.mem_reverse]⟩

/-- The state with lights 0 and 1 and the connection (0, 0, 0) is reachable. -/
theorem reachable_stC : Reachable env0 stC := by
  have h1 : init_register_light env0 initState 0 = .ok stA := rfl
  have h2 : init_register_light env0 stA 1 = .ok stB := rfl
  have h3 : connect_light_to_ldd_for_ng env0 stB 0 0 0 = .ok stC := rfl
  exact Reachable.connect (Reachable.initLight (Reachable.initLight Reachable.init h1) h2) h3

theorem init_register_light_preserves_connection_set_witness :
    ∃ st', init_register_light env0 stC 2 = .ok st' ∧
      ∀ t, t ∈ st'.connections ↔ t ∈ stC.connections :=
  init_register_light_preserves_connection_set env0 stC 2 reachable_stC

/-- C4: registering a new light with `k = light.n` elements on a registry
whose container holds `v` produces the container `v ++ replicate k 0`: it
has exactly `|v| + k` elements, every prior offset reads its old value, the
tail slice `[|v|, |v|+k)` is assigned to the new light and holds the default
value 0, and every other light's slice is unchanged. -/
theorem init_register_light_resize (env : Env) (st : Registry) (l : Nat)
    (v : List ℚ) (st' : Registry) (hv : st.light_source_ng = some v)
    (hok : init_register_light env st l = .ok st') :
    st'.light_source_ng = some (v ++ List.replicate (env.lightN l) 0) ∧
      (v ++ List.replicate (env.lightN l) 0).length = v.length + env.lightN l ∧
      (∀ i, i < v.length →
        (v ++ List.replicate (env.lightN l) 0).getD i 0 = v.getD i 0) ∧
      (v ++ List.replicate (env.lightN l) 0).drop v.length
        = List.replicate (env.lightN l) 0 ∧
      alookup st'.subgroup_idx_for_light l
        = some (v.length, v.length + env.lightN l) ∧
      ∀ l', l' ≠ l → alookup st'.subgroup_idx_for_light l'
        = alookup st.subgroup_idx_for_light l' := by
  have hprev : prevIrr st = v := by rw [prevIrr, hv]
  have hlen : containerLen st = v.length := by rw [containerLen, hprev]
  obtain ⟨p1, p2, p3, p4, p5, p6⟩ := init_register_light_ok_proj env st l st' hok
  refine ⟨by rw [p1, hprev], by simp, ?_, ?_, ?_, ?_⟩
  · intro i hi
    exact List.getD_append _ _ _ _ hi
  · exact List.drop_left v _
  · rw [p2, hlen, alookup_upsert_self]
  · intro l' hl'
    rw [p2, alookup_upsert, if_neg hl']

theorem init_register_light_resize_witness :
    stB.light_source_ng = some ([0] ++ List.replicate (env0.lightN 1) 0) :=
  (init_register_light_resize env0 stA 1 [0] stB rfl rfl).1

/-! ## `connect_light_to_ldd_for_ng` -/

/-- C7: a connect whose sensitivity at the light's wavelength is exactly
zero returns the registry unchanged: no triple is added to the connection
set, no coupling structure is created, no error is raised. -/
theorem connect_zero_sensitivity_noop (env : Env) (st : Registry) (l d g : Nat)
    (hε : env.ldd_epsilon d (env.lightWavelength l) = 0) :
    connect_light_to_ldd_for_ng env st l d g = .ok st := by
  unfold connect_light_to_ldd_for_ng
  rw [if_pos hε]

theorem connect_zero_sensitivity_noop_witness :
    connect_light_to_ldd_for_ng env0 stB 0 1 0 = .ok stB :=
  connect_zero_sensitivity_noop env0 stB 0 1 0 (by simp [env0])

/-- C6: with nonzero sensitivity, a registered light, and a triple not yet
connected, the first connect succeeds and an immediate second connect for
the same triple (no intervening rebuild) raises the duplicate-connection
error naming the triple. -/
theorem connect_duplicate_raises (env : Env) (st : Registry) (l d g a b : Nat)
    (hε : env.ldd_epsilon d (env.lightWavelength l) ≠ 0)
    (hnot : (l, d, g) ∉ st.connections)
    (hslice : alookup st.subgroup_idx_for_light l = some (a, b)) :
    ∃ st', connect_light_to_ldd_for_ng env st l d g = .ok st' ∧
      connect_light_to_ldd_for_ng env st' l d g
        = .error (.duplicateConnection l d g) := by
  have hok := connect_ok_explicit env st l d g a b hε hnot hslice
  set st' := connectWrite env (get_or_create_light_prop_syn st d g (env.ngSize g)).2
    (get_or_create_light_prop_syn st d g (env.ngSize g)).1 l d g a b
    (env.ldd_epsilon d (env.lightWavelength l)) with hst'
  obtain ⟨gsub, gsrc, gconn, -, -, -, -⟩ := get_or_create_proj st d g (env.ngSize g)
  obtain ⟨-, -, wconn, -, -, -, -⟩ :=
    connectWrite_proj env (get_or_create_light_prop_syn st d g (env.ngSize g)).2
      (get_or_create_light_prop_syn st d g (env.ngSize g)).1 l d g a b
      (env.ldd_epsilon d (env.lightWavelength l))
  have hmem : (l, d, g) ∈ st'.connections := by
    rw [hst', wconn, gconn, addCxn, if_neg hnot]
    exact List.mem_cons_self _ _
  obtain ⟨g2sub, g2src, g2conn, -, -, -, -⟩ := get_or_create_proj st' d g (env.ngSize g)
  refine ⟨st', hok, ?_⟩
  unfold connect_light_to_ldd_for_ng
  rw [if_neg hε, if_pos (g2conn ▸ hmem)]

theorem connect_duplicate_raises_witness :
    ∃ st', connect_light_to_ldd_for_ng env0 stB 0 0 0 = .ok st' ∧
      connect_light_to_ldd_for_ng env0 st' 0 0 0
        = .error (.duplicateConnection 0 0 0) :=
  connect_duplicate_raises env0 stB 0 0 0 0 1 (by simp [env0])
    (List.not_mem_nil _) rfl

/-- C10: a coupling structure created by `_get_or_create_light_prop_syn`
(none existed for this (LDD, group) pair) has its photon-energy field
initialized to 1 joule — in particular nonzero, so `phi = Irr / Ephoton`
never divides by zero — on every edge, including edges of lights that are
never connected to it. -/
theorem new_light_prop_syn_Ephoton (st : Registry) (d g n : Nat)
    (h : alookup st.light_prop_syns (d, g) = none) :
    (∀ i j, (get_or_create_light_prop_syn st d g n).1.Ephoton i j = 1 ∧
        (get_or_create_light_prop_syn st d g n).1.Ephoton i j ≠ 0) ∧
      alookup (get_or_create_light_prop_syn st d g n).2.light_prop_syns (d, g)
        = some (get_or_create_light_prop_syn st d g n).1 := by
  unfold get_or_create_light_prop_syn
  simp only [h]
  exact ⟨fun i j => ⟨rfl, one_ne_zero⟩, alookup_upsert_self _ _ _⟩

theorem new_light_prop_syn_Ephoton_witness :
    (get_or_create_light_prop_syn stB 0 0 (env0.ngSize 0)).1.Ephoton 0 0 = 1 :=
  ((new_light_prop_syn_Ephoton stB 0 0 (env0.ngSize 0) rfl).1 0 0).1

/-! ## The oversampling scale factor (C9) -/

theorem connDwell_pos (env : Env) (st : Registry) (l : Nat)
    (hfov : st.raster_fov ≠ 0) (hfreq : 0 < env.lightScanFreq l) :
    0 < connDwell env st l := by
  unfold connDwell connScanPeriod
  have h1 : (0 : ℚ) < (1 / 10 ^ 10) / ((st.raster_fov / 2) ^ 2) :=
    div_pos (by norm_num)
      (pow_two_pos_of_ne_zero (div_ne_zero hfov (by norm_num)))
  exact mul_pos h1 (by positivity)

theorem connScale_eq_max (env : Env) (st : Registry) (l : Nat)
    (hd : 0 < connDwell env st l) :
    connScale env st l = 1 + max 0 (env.dt / connDwell env st l - 1) ∧
      (connDwell env st l < env.dt →
        connScale env st l = env.dt / connDwell env st l) ∧
      (env.dt ≤ connDwell env st l → connScale env st l = 1) := by
  unfold connScale
  by_cases h : connDwell env st l < env.dt
  · rw [if_pos h]
    have hmax : max 0 (env.dt / connDwell env st l - 1)
        = env.dt / connDwell env st l - 1 :=
      max_eq_right (by rw [sub_nonneg]; exact (one_le_div hd).mpr h.le)
    exact ⟨by rw [hmax]; ring, fun _ => by ring, fun hc => absurd h (not_lt.mpr hc)⟩
  · rw [if_neg h]
    have hle : env.dt ≤ connDwell env st l := not_lt.mp h
    have hmax : max 0 (env.dt / connDwell env st l - 1) = 0 :=
      max_eq_left (by rw [sub_nonpos]; exact (div_le_one hd).mpr hle)
    exact ⟨by rw [hmax]; ring, fun hc => absurd hc (not_lt.mpr hle), fun _ => by ring⟩

/-- `connDwell` and `connScale` only read the field-of-view from the state. -/
theorem connDwell_congr (env : Env) (st1 st : Registry) (l : Nat)
    (h : st1.raster_fov = st.raster_fov) :
    connDwell env st1 l = connDwell env st l ∧
      connScale env st1 l = connScale env st l := by
  unfold connScale connDwell
  rw [h]
  exact ⟨rfl, rfl⟩

/-- C9: every successful connect with nonzero sensitivity writes, on every
edge of the coupling structure, the oversampling scale factor
`1 + max(0, dt/dwell - 1)`: equal to `dt/dwell` when the simulation step
`dt` exceeds the raster dwell time, and to 1 otherwise. -/
theorem connect_scale_oversampling (env : Env) (st : Registry) (l d g a b : Nat)
    (hε : env.ldd_epsilon d (env.lightWavelength l) ≠ 0)
    (hnot : (l, d, g) ∉ st.connections)
    (hslice : alookup st.subgroup_idx_for_light l = some (a, b))
    (hfov : st.raster_fov ≠ 0) (hfreq : 0 < env.lightScanFreq l) :
    ∃ st' syn', connect_light_to_ldd_for_ng env st l d g = .ok st' ∧
      alookup st'.light_prop_syns (d, g) = some syn' ∧
      ∀ i j, syn'.raster_dwell_time i j = connDwell env st l ∧
        syn'.scale i j = 1 + max 0 (env.dt / syn'.raster_dwell_time i j - 1) ∧
        (syn'.raster_dwell_time i j < env.dt →
          syn'.scale i j = env.dt / syn'.raster_dwell_time i j) ∧
        (env.dt ≤ syn'.raster_dwell_time i j → syn'.scale i j = 1) := by
  have hok := connect_ok_explicit env st l d g a b hε hnot hslice
  obtain ⟨-, -, -, gfov, -, -, -⟩ := get_or_create_proj st d g (env.ngSize g)
  obtain ⟨hdq, hsq⟩ :=
    connDwell_congr env (get_or_create_light_prop_syn st d g (env.ngSize g)).2 st l gfov
  have hd := connDwell_pos env st l hfov hfreq
  obtain ⟨hm1, hm2, hm3⟩ := connScale_eq_max env st l hd
  refine ⟨_, _, hok, alookup_upsert_self _ _ _, ?_⟩
  · intro i j
    refine ⟨hdq, ?_, fun hlt => ?_, fun hle => ?_⟩
    · show connScale env (get_or_create_light_prop_syn st d g (env.ngSize g)).2 l
        = 1 + max 0 (env.dt /
          connDwell env (get_or_create_light_prop_syn st d g (env.ngSize g)).2 l - 1)
      rw [hsq, hdq]
      exact hm1
    · show connScale env (get_or_create_light_prop_syn st d g (env.ngSize g)).2 l
        = env.dt / connDwell env (get_or_create_light_prop_syn st d g (env.ngSize g)).2 l
      rw [hsq, hdq]
      exact hm2 (by rw [← hdq]; exact hlt)
    · show connScale env (get_or_create_light_prop_syn st d g (env.ngSize g)).2 l = 1
      rw [hsq]
      exact hm3 (by rw [← hdq]; exact hle)

theorem connect_scale_oversampling_witness :
    ∃ st' syn', connect_light_to_ldd_for_ng env0 stB 0 0 0 = .ok st' ∧
      alookup st'.light_prop_syns (0, 0) = some syn' ∧
      ∀ i j, syn'.raster_dwell_time i j = connDwell env0 stB 0 ∧
        syn'.scale i j = 1 + max 0 (env0.dt / syn'.raster_dwell_time i j - 1) ∧
        (syn'.raster_dwell_time i j < env0.dt →
          syn'.scale i j = env0.dt / syn'.raster_dwell_time i j) ∧
        (env0.dt ≤ syn'.raster_dwell_time i j → syn'.scale i j = 1) :=
  connect_scale_oversampling env0 stB 0 0 0 0 1 (by simp [env0])
    (List.not_mem_nil _) rfl (by show (1 : ℚ) / 2000 ≠ 0; norm_num)
    (by simp [env0])

/-! ## The write footprint of connect (C2) -/

theorem get_or_create_existing (st : Registry) (d g n : Nat) (syn0 : Syn)
    (h : alookup st.light_prop_syns (d, g) = some syn0) :
    get_or_create_light_prop_syn st d g n = (syn0, st) := by
  unfold get_or_create_light_prop_syn
  rw [h]

/-- C2 (amended): a successful connect on an existing coupling structure
writes `epsilon`, `T` and `Ephoton` only on the light's slice rows — every
other light's `epsilon`/`T`/`Ephoton` entries are unchanged — but writes
`scan_period`, `raster_dwell_time`, `scale` and `raster_enable` on every
edge of the structure (they are assigned without a slice); coupling
structures of other (LDD, group) pairs are untouched. -/
theorem connect_write_footprint (env : Env) (st : Registry) (l d g a b : Nat)
    (syn0 : Syn) (hsyn : alookup st.light_prop_syns (d, g) = some syn0)
    (hε : env.ldd_epsilon d (env.lightWavelength l) ≠ 0)
    (hnot : (l, d, g) ∉ st.connections)
    (hslice : alookup st.subgroup_idx_for_light l = some (a, b)) :
    ∃ st' syn', connect_light_to_ldd_for_ng env st l d g = .ok st' ∧
      alookup st'.light_prop_syns (d, g) = some syn' ∧
      (∀ i j, ¬(a ≤ i ∧ i < b) →
        syn'.T i j = syn0.T i j ∧ syn'.epsilon i j = syn0.epsilon i j ∧
          syn'.Ephoton i j = syn0.Ephoton i j) ∧
      (∀ i j, a ≤ i → i < b →
        syn'.epsilon i j = env.ldd_epsilon d (env.lightWavelength l) ∧
          syn'.T i j = env.lightT l g (i - a) j ∧
          syn'.Ephoton i j = connEphoton env l) ∧
      (∀ i j, syn'.scan_period i j = connScanPeriod env l ∧
        syn'.raster_dwell_time i j = connDwell env st l ∧
        syn'.scale i j = connScale env st l ∧
        syn'.raster_enable i j = st.raster_enable) ∧
      ∀ d' g', (d', g') ≠ ((d, g) : Nat × Nat) →
        alookup st'.light_prop_syns (d', g')
          = alookup st.light_prop_syns (d', g') := by
  have hok := connect_ok_explicit env st l d g a b hε hnot hslice
  rw [get_or_create_existing st d g (env.ngSize g) syn0 hsyn] at hok
  refine ⟨_, _, hok, alookup_upsert_self _ _ _, ?_, ?_, ?_, ?_⟩
  · intro i j hij
    exact ⟨if_neg hij, if_neg hij, if_neg hij⟩
  · intro i j hai hib
    exact ⟨if_pos ⟨hai, hib⟩, if_pos ⟨hai, hib⟩, if_pos ⟨hai, hib⟩⟩
  · intro i j
    exact ⟨rfl, rfl, rfl, rfl⟩
  · intro d' g' hne
    show alookup (upsert st.light_prop_syns (d, g) _) (d', g') = _
    rw [alookup_upsert, if_neg hne]

theorem connect_write_footprint_witness :
    ∃ st' syn', connect_light_to_ldd_for_ng env0 stC 1 0 0 = .ok st' ∧
      alookup st'.light_prop_syns (0, 0) = some syn' ∧
      (∀ i j, ¬(1 ≤ i ∧ i < 2) →
        syn'.T i j = synC.T i j ∧ syn'.epsilon i j = synC.epsilon i j ∧
          syn'.Ephoton i j = synC.Ephoton i j) ∧
      (∀ i j, 1 ≤ i → i < 2 →
        syn'.epsilon i j = env0.ldd_epsilon 0 (env0.lightWavelength 1) ∧
          syn'.T i j = env0.lightT 1 0 (i - 1) j ∧
          syn'.Ephoton i j = connEphoton env0 1) ∧
      (∀ i j, syn'.scan_period i j = connScanPeriod env0 1 ∧
        syn'.raster_dwell_time i j = connDwell env0 stC 1 ∧
        syn'.scale i j = connScale env0 stC 1 ∧
        syn'.raster_enable i j = stC.raster_enable) ∧
      ∀ d' g', (d', g') ≠ ((0, 0) : Nat × Nat) →
        alookup st'.light_prop_syns (d', g')
          = alookup stC.light_prop_syns (d', g') :=
  connect_write_footprint env0 stC 1 0 0 1 2 synC rfl (by simp [env0])
    (by intro h; simp [stC, stB, stA, getOk] at h; revert h; decide)
    rfl

/-- C2 counterexample: connecting light 1 to the structure shared with
light 0 changes the `scan_period` stored on light 0's slice row (edge
(0, 0), inside light 0's slice `[0, 2) ∩ [0, 1)`): it is 1 s after the
first connect and 1/2 s after the second.  The per-edge fields of other
lights' slices are therefore not left unchanged by the call. -/
theorem connect_overwrites_other_slice_scan_period :
    alookup stB.subgroup_idx_for_light 0 = some (0, 1) ∧
      connect_light_to_ldd_for_ng env0 stC 1 0 0 = .ok stD ∧
      synC.scan_period 0 0 = 1 ∧ synD.scan_period 0 0 = 1 / 2 := by
  refine ⟨rfl, rfl, ?_, ?_⟩
  · show (1 : ℚ) / (((0 : Nat) : ℚ) + 1) = 1
    norm_num
  · show (1 : ℚ) / (((1 : Nat) : ℚ) + 1) = 1 / 2
    norm_num

/-! ## `update_fov` (C3) -/

/-- C3 (amended): `update_fov` sets the raster-enable flag on every call and
keeps the newest field-of-view (last write wins); it emits exactly one
compatibility warning whenever the new value differs from the currently
stored field-of-view — including a first call that differs from the
default 500 um — and none otherwise. -/
theorem update_fov_semantics (st : Registry) (f : ℚ) :
    (update_fov st f).1.raster_enable = 1 ∧ (update_fov st f).1.raster_fov = f ∧
      (update_fov st f).2 = if st.raster_fov = f then 0 else 1 := by
  rw [update_fov_fst, update_fov_snd]
  exact ⟨rfl, rfl, rfl⟩

/-- C3 counterexample: on a fresh registry (default `raster_fov = 1/2000`),
`update_fov 100` already warns because `100 ≠ 1/2000`, so the
100-then-200 scenario emits two compatibility warnings in total, not
exactly one; the final state does keep 200 with raster-enable set. -/
theorem update_fov_warns_twice :
    (update_fov initState 100).2 = 1 ∧
      (update_fov (update_fov initState 100).1 200).2 = 1 ∧
      (update_fov (update_fov initState 100).1 200).1.raster_fov = 200 ∧
      (update_fov (update_fov initState 100).1 200).1.raster_enable = 1 ∧
      (update_fov initState 100).2 + (update_fov (update_fov initState 100).1 200).2
        ≠ 1 := by
  have h0 : initState.raster_fov = 1 / 2000 := rfl
  have h1 : (update_fov initState 100).2 = 1 := by
    rw [update_fov_snd, h0, if_neg (by norm_num)]
  have h2 : (update_fov initState 100).1.raster_fov = 100 := by
    rw [update_fov_fst]
  have h3 : (update_fov (update_fov initState 100).1 200).2 = 1 := by
    rw [update_fov_snd, h2, if_neg (by norm_num)]
  refine ⟨h1, h3, ?_, ?_, ?_⟩
  · rw [update_fov_fst]
  · rw [update_fov_fst]
  · rw [h1, h3]
    norm_num

/-! ## Slice partition (C5) -/

theorem le_endAt (a : Nat) (m : List (Nat × Nat × Nat)) (h : consecFrom a m) :
    a ≤ endAt a m := by
  induction m generalizing a with
  | nil => exact le_refl a
  | cons q t ih =>
    obtain ⟨hq1, hq2, hq3⟩ := h
    exact le_trans hq2 (ih q.2.2 hq3)

theorem consecFrom_entry (a : Nat) (m : List (Nat × Nat × Nat))
    (h : consecFrom a m) :
    ∀ p ∈ m, a ≤ p.2.1 ∧ p.2.1 ≤ p.2.2 ∧ p.2.2 ≤ endAt a m := by
  induction m generalizing a with
  | nil => intro p hp; exact absurd hp (List.not_mem_nil p)
  | cons q t ih =>
    obtain ⟨hq1, hq2, hq3⟩ := h
    intro p hp
    rcases List.mem_cons.mp hp with rfl | hp'
    · exact ⟨le_of_eq hq1.symm, hq1 ▸ hq2, le_endAt p.2.2 t hq3⟩
    · obtain ⟨ih1, ih2, ih3⟩ := ih q.2.2 hq3 p hp'
      exact ⟨le_trans hq2 ih1, ih2, ih3⟩

theorem consecFrom_pairwise (a : Nat) (m : List (Nat × Nat × Nat))
    (h : consecFrom a m) :
    m.Pairwise (fun p q => p.2.2 ≤ q.2.1) := by
  induction m generalizing a with
  | nil => exact List.Pairwise.nil
  | cons q t ih =>
    obtain ⟨hq1, hq2, hq3⟩ := h
    refine List.Pairwise.cons ?_ (ih q.2.2 hq3)
    intro p hp
    exact (consecFrom_entry q.2.2 t hq3 p hp).1

theorem consecFrom_cover (a : Nat) (m : List (Nat × Nat × Nat))
    (h : consecFrom a m) :
    ∀ i, a ≤ i → i < endAt a m → ∃ p ∈ m, sliceCovers p i := by
  induction m generalizing a with
  | nil => intro i hai hie; exact absurd (lt_of_le_of_lt hai hie) (lt_irrefl a)
  | cons q t ih =>
    obtain ⟨hq1, hq2, hq3⟩ := h
    intro i hai hie
    by_cases hiq : i < q.2.2
    · exact ⟨q, List.mem_cons_self _ _, hq1 ▸ hai, hiq⟩
    · obtain ⟨p, hp, hcov⟩ := ih q.2.2 hq3 i (not_lt.mp hiq) hie
      exact ⟨p, List.mem_cons_of_mem _ hp, hcov⟩

/-- Appending a fresh tail slice `(k, c, c + n)` to a consecutive map ending
at `c` keeps it consecutive and moves the end to `c + n`. -/
theorem consecFrom_append (a : Nat) (m : List (Nat × Nat × Nat)) (k c n : Nat)
    (h : consecFrom a m) (he : endAt a m = c) :
    consecFrom a (m ++ [(k, c, c + n)]) ∧
      endAt a (m ++ [(k, c, c + n)]) = c + n := by
  induction m generalizing a with
  | nil =>
    obtain rfl : a = c := he
    exact ⟨⟨rfl, Nat.le_add_right a n, trivial⟩, rfl⟩
  | cons q t ih =>
    obtain ⟨hq1, hq2, hq3⟩ := h
    obtain ⟨ih1, ih2⟩ := ih q.2.2 hq3 he
    exact ⟨⟨hq1, hq2, ih1⟩, ih2⟩

/-- `SlicesOK` implies the spec's partition statement. -/
theorem SlicesOK_partition (st : Registry) (h : SlicesOK st) :
    slicesDisjoint st ∧ slicesCover st := by
  obtain ⟨hc, he⟩ := h
  have hpw : st.subgroup_idx_for_light.Pairwise
      (fun p q => p.2.2 ≤ q.2.1 ∨ q.2.2 ≤ p.2.1) :=
    (consecFrom_pairwise 0 _ hc).imp (fun h => Or.inl h)
  have hsymm : Symmetric (fun p q : Nat × Nat × Nat =>
      p.2.2 ≤ q.2.1 ∨ q.2.2 ≤ p.2.1) := fun p q hpq => hpq.symm
  refine ⟨?_, ?_, ?_⟩
  · intro p hp q hq hne i ⟨⟨hpi1, hpi2⟩, ⟨hqi1, hqi2⟩⟩
    have hpq : p ≠ q := fun hc' => hne (by rw [hc'])
    rcases List.Pairwise.forall hsymm hpw hp hq hpq with hle | hle
    · exact absurd (lt_of_lt_of_le hpi2 (le_trans hle hqi1)) (lt_irrefl i)
    · exact absurd (lt_of_lt_of_le hqi2 (le_trans hle hpi1)) (lt_irrefl i)
  · intro p hp
    rw [← he]
    exact (consecFrom_entry 0 _ hc p hp).2.2
  · intro i hi
    exact consecFrom_cover 0 _ hc i (Nat.zero_le i) (he ▸ hi)

/-- Every state reached with each light registered at most once satisfies
the strong slice invariant. -/
theorem ReachableFresh_SlicesOK (env : Env) (st : Registry)
    (h : ReachableFresh env st) : SlicesOK st := by
  induction h with
  | init => exact ⟨trivial, rfl⟩
  | @initLight st st' l hr hfresh hok ih =>
    obtain ⟨p1, p2, -, -, -, -⟩ := init_register_light_ok_proj env st l st' hok
    have hup : upsert st.subgroup_idx_for_light l
        (containerLen st, containerLen st + env.lightN l)
        = st.subgroup_idx_for_light ++
          [(l, containerLen st, containerLen st + env.lightN l)] :=
      upsert_of_alookup_none _ _ _ hfresh
    obtain ⟨hc1, hc2⟩ := consecFrom_append 0 st.subgroup_idx_for_light l
      (containerLen st) (env.lightN l) ih.1 ih.2
    have hlen : containerLen st' = containerLen st + env.lightN l := by
      rw [containerLen, prevIrr, p1]
      simp [containerLen]
    refine ⟨?_, ?_⟩
    · rw [p2, hup]
      exact hc1
    · rw [p2, hup, hlen]
      exact hc2
  | @regLight st st' l g hr hok ih =>
    obtain ⟨r1, r2, -, -, -, -⟩ := replay_proj env _ _ st' hok
    rw [SlicesOK, r1, containerLen, prevIrr, r2]
    exact ih
  | @regLdd st st' d g hr hok ih =>
    obtain ⟨r1, r2, -, -, -, -⟩ := replay_proj env _ _ st' hok
    rw [SlicesOK, r1, containerLen, prevIrr, r2]
    exact ih
  | @connect st st' l d g hr hok ih =>
    obtain ⟨r1, r2, -, -, -, -⟩ := connect_ok_proj env st l d g st' hok
    rw [SlicesOK, r1, containerLen, prevIrr, r2]
    exact ih
  | @fov st f hr ih =>
    rw [update_fov_fst]
    exact ih

/-- C5 (amended): in every registry state reachable by register operations
in which each light is registered at most once, the container slices of the
registered lights are pairwise disjoint and their union is exactly the full
allocated range of the light-source container. -/
theorem slices_partition_of_fresh (env : Env) (st : Registry)
    (h : ReachableFresh env st) : slicesDisjoint st ∧ slicesCover st :=
  SlicesOK_partition st (ReachableFresh_SlicesOK env st h)

/-- The two-light state is reachable with fresh registrations only. -/
theorem reachableFresh_stB : ReachableFresh env0 stB := by
  have h1 : init_register_light env0 initState 0 = .ok stA := rfl
  have h2 : init_register_light env0 stA 1 = .ok stB := rfl
  have hf1 : alookup initState.subgroup_idx_for_light 0 = none := rfl
  have hf2 : alookup stA.subgroup_idx_for_light 1 = none := rfl
  exact ReachableFresh.initLight
    (ReachableFresh.initLight ReachableFresh.init hf1 h1) hf2 h2

theorem slices_partition_of_fresh_witness :
    slicesDisjoint stB ∧ slicesCover stB :=
  slices_partition_of_fresh env0 stB reachableFresh_stB

/-- C5 counterexample: `init_register_light` can be invoked twice for the
same light (nothing in the code prevents it); after re-registering light 0
on `stA`, the slice map holds only the tail slice `[1, 2)` while the
container has grown to 2 elements — index 0 is covered by no slice, so the
slices no longer partition the allocated range. -/
theorem slices_no_partition_after_duplicate_registration :
    init_register_light env0 stA 0 = .ok stDup ∧
      stDup.subgroup_idx_for_light = [(0, 1, 2)] ∧
      containerLen stDup = 2 ∧ ¬slicesCover stDup := by
  refine ⟨rfl, rfl, rfl, ?_⟩
  rintro ⟨-, h2⟩
  obtain ⟨p, hp, hcov⟩ := h2 0 (by rw [show containerLen stDup = 2 from rfl]; norm_num)
  rw [show stDup.subgroup_idx_for_light = [(0, 1, 2)] from rfl] at hp
  rw [List.mem_singleton] at hp
  subst hp
  exact absurd hcov.1 (by norm_num)

end CleoRegistry

namespace CleoOpto

/-! ## Properties of the transmittance model (C8) -/

theorem Foutz12_transmittance_def (p : LightModelParams) (r z : ℝ) :
    Foutz12_transmittance p r z true true true =
      1 / Real.sqrt (2 * Real.pi) * Real.exp (-2 * (r / apparent_radius p z) ^ 2) *
        (p.R0 / apparent_radius p z) ^ 2 *
        kubelka_munk p (Real.sqrt (r ^ 2 + z ^ 2)) := by
  simp [Foutz12_transmittance]

theorem km_b_pos (p : LightModelParams) (hK : 0 < p.K) (hS : 0 < p.S) :
    0 < km_b p := by
  have hd : 0 < p.K / p.S := div_pos hK hS
  apply Real.sqrt_pos.mpr
  nlinarith

theorem km_denom_pos (p : LightModelParams) (hK : 0 < p.K) (hS : 0 < p.S)
    (d : ℝ) (hd : 0 ≤ d) : 0 < km_denom p d := by
  have hb := km_b_pos p hK hS
  have hx : 0 ≤ km_b p * p.S * d := mul_nonneg (mul_nonneg hb.le hS.le) hd
  have h1 : 0 ≤ (1 + p.K / p.S) * Real.sinh (km_b p * p.S * d) := by
    have hd2 : 0 < p.K / p.S := div_pos hK hS
    exact mul_nonneg (by linarith) (Real.sinh_nonneg_iff.mpr hx)
  have h2 : 0 < km_b p * Real.cosh (km_b p * p.S * d) :=
    mul_pos hb (lt_of_lt_of_le one_pos (Real.one_le_cosh _))
  unfold km_denom
  linarith

theorem km_denom_mono (p : LightModelParams) (hK : 0 < p.K) (hS : 0 < p.S)
    (d1 d2 : ℝ) (h0 : 0 ≤ d1) (h12 : d1 ≤ d2) :
    km_denom p d1 ≤ km_denom p d2 := by
  have hb := km_b_pos p hK hS
  have hbS : 0 ≤ km_b p * p.S := mul_nonneg hb.le hS.le
  have hx1 : 0 ≤ km_b p * p.S * d1 := mul_nonneg hbS h0
  have hx12 : km_b p * p.S * d1 ≤ km_b p * p.S * d2 :=
    mul_le_mul_of_nonneg_left h12 hbS
  have hx2 : 0 ≤ km_b p * p.S * d2 := le_trans hx1 hx12
  have hsinh : Real.sinh (km_b p * p.S * d1) ≤ Real.sinh (km_b p * p.S * d2) :=
    Real.sinh_le_sinh.mpr hx12
  have hcosh : Real.cosh (km_b p * p.S * d1) ≤ Real.cosh (km_b p * p.S * d2) := by
    apply Real.cosh_le_cosh.mpr
    rw [abs_of_nonneg hx1, abs_of_nonneg hx2]
    exact hx12
  have ha : (0:ℝ) ≤ 1 + p.K / p.S := by
    have := div_pos hK hS
    linarith
  unfold km_denom
  exact add_le_add (mul_le_mul_of_nonneg_left hsinh ha)
    (mul_le_mul_of_nonneg_left hcosh hb.le)

theorem kubelka_munk_pos (p : LightModelParams) (hK : 0 < p.K) (hS : 0 < p.S)
    (d : ℝ) (hd : 0 ≤ d) : 0 < kubelka_munk p d :=
  div_pos (km_b_pos p hK hS) (km_denom_pos p hK hS d hd)

theorem kubelka_munk_antitone (p : LightModelParams) (hK : 0 < p.K) (hS : 0 < p.S)
    (d1 d2 : ℝ) (h0 : 0 ≤ d1) (h12 : d1 ≤ d2) :
    kubelka_munk p d2 ≤ kubelka_munk p d1 :=
  div_le_div_of_nonneg_left (km_b_pos p hK hS).le (km_denom_pos p hK hS d1 h0)
    (km_denom_mono p hK hS d1 d2 h0 h12)

theorem kubelka_munk_zero (p : LightModelParams) (hK : 0 < p.K) (hS : 0 < p.S) :
    kubelka_munk p 0 = 1 := by
  have hb := km_b_pos p hK hS
  unfold kubelka_munk km_denom
  rw [mul_zero, Real.sinh_zero, Real.cosh_zero, mul_zero, mul_one, zero_add]
  exact div_self hb.ne'

theorem tan_theta_div_nonneg (p : LightModelParams)
    (hNA0 : 0 ≤ p.NAfib / p.ntis) (hNA1 : p.NAfib / p.ntis < 1) :
    0 ≤ Real.tan (theta_div p) :=
  Real.tan_nonneg_of_nonneg_of_le_pi_div_two (Real.arcsin_nonneg.mpr hNA0)
    (le_of_lt (Real.arcsin_lt_pi_div_two.mpr hNA1))

theorem apparent_radius_pos (p : LightModelParams) (hR0 : 0 < p.R0)
    (htan : 0 ≤ Real.tan (theta_div p)) (z : ℝ) (hz : 0 ≤ z) :
    0 < apparent_radius p z :=
  add_pos_of_pos_of_nonneg hR0 (mul_nonneg hz htan)

theorem apparent_radius_mono (p : LightModelParams)
    (htan : 0 ≤ Real.tan (theta_div p)) (z1 z2 : ℝ) (h12 : z1 ≤ z2) :
    apparent_radius p z1 ≤ apparent_radius p z2 :=
  add_le_add_left (mul_le_mul_of_nonneg_right h12 htan) p.R0

end CleoOpto

namespace CleoOpto

/-- C8 (amended): for parameters with positive fiber radius, positive
absorbance and scattering coefficients, and divergence ratio
`NAfib/ntis` in `[0, 1)`: the transmittance at the origin is finite and
lies in `(0, 1]`; for any fixed axial offset `z >= 0` it is monotonically
non-increasing in the radial offset magnitude; and on the fiber axis
(`r = 0`) it is monotonically non-increasing in `z` for `z >= 0`.
(Monotonicity in the axial offset magnitude does not hold in general; see
the counterexample.) -/
theorem Foutz12_transmittance_origin_and_monotone (p : LightModelParams)
    (hR0 : 0 < p.R0) (hK : 0 < p.K) (hS : 0 < p.S)
    (hNA0 : 0 ≤ p.NAfib / p.ntis) (hNA1 : p.NAfib / p.ntis < 1) :
    (0 < Foutz12_transmittance p 0 0 true true true ∧
      Foutz12_transmittance p 0 0 true true true ≤ 1) ∧
    (∀ z r1 r2, 0 ≤ z → 0 ≤ r1 → r1 ≤ r2 →
      Foutz12_transmittance p r2 z true true true ≤
        Foutz12_transmittance p r1 z true true true) ∧
    (∀ z1 z2, 0 ≤ z1 → z1 ≤ z2 →
      Foutz12_transmittance p 0 z2 true true true ≤
        Foutz12_transmittance p 0 z1 true true true) := by
  have htan := tan_theta_div_nonneg p hNA0 hNA1
  have hsqrt2pi : 0 < Real.sqrt (2 * Real.pi) :=
    Real.sqrt_pos.mpr (by positivity)
  refine ⟨?_, ?_, ?_⟩
  · -- the origin
    rw [Foutz12_transmittance_def]
    have h0 : apparent_radius p 0 = p.R0 := by
      unfold apparent_radius
      ring
    rw [h0, zero_div, div_self hR0.ne']
    have hsq0 : Real.sqrt ((0:ℝ) ^ 2 + 0 ^ 2) = 0 := by
      rw [show (0:ℝ) ^ 2 + 0 ^ 2 = 0 by ring]
      exact Real.sqrt_zero
    rw [hsq0, kubelka_munk_zero p hK hS,
      show (-2 * (0:ℝ) ^ 2) = 0 by ring, Real.exp_zero,
      show 1 / Real.sqrt (2 * Real.pi) * 1 * 1 ^ 2 * 1 = 1 / Real.sqrt (2 * Real.pi)
        by ring]
    constructor
    · positivity
    · rw [div_le_one hsqrt2pi]
      calc (1:ℝ) = Real.sqrt 1 := Real.sqrt_one.symm
        _ ≤ Real.sqrt (2 * Real.pi) := Real.sqrt_le_sqrt (by nlinarith [Real.two_le_pi])
  · -- radial monotonicity at fixed z >= 0
    intro z r1 r2 hz hr1 hr12
    rw [Foutz12_transmittance_def, Foutz12_transmittance_def]
    have hRz : 0 < apparent_radius p z := apparent_radius_pos p hR0 htan z hz
    have hG : Real.exp (-2 * (r2 / apparent_radius p z) ^ 2) ≤
        Real.exp (-2 * (r1 / apparent_radius p z) ^ 2) := by
      apply Real.exp_le_exp.mpr
      have hdiv : r1 / apparent_radius p z ≤ r2 / apparent_radius p z :=
        (div_le_div_iff_of_pos_right hRz).mpr hr12
      have hdiv0 : 0 ≤ r1 / apparent_radius p z := div_nonneg hr1 hRz.le
      have hsq : (r1 / apparent_radius p z) ^ 2 ≤ (r2 / apparent_radius p z) ^ 2 :=
        pow_le_pow_left₀ hdiv0 hdiv 2
      linarith
    have hd12 : Real.sqrt (r1 ^ 2 + z ^ 2) ≤ Real.sqrt (r2 ^ 2 + z ^ 2) := by
      apply Real.sqrt_le_sqrt
      have := pow_le_pow_left₀ hr1 hr12 2
      linarith
    have hKM : kubelka_munk p (Real.sqrt (r2 ^ 2 + z ^ 2)) ≤
        kubelka_munk p (Real.sqrt (r1 ^ 2 + z ^ 2)) :=
      kubelka_munk_antitone p hK hS _ _ (Real.sqrt_nonneg _) hd12
    have hKM2pos : 0 < kubelka_munk p (Real.sqrt (r2 ^ 2 + z ^ 2)) :=
      kubelka_munk_pos p hK hS _ (Real.sqrt_nonneg _)
    apply mul_le_mul _ hKM hKM2pos.le (by positivity)
    apply mul_le_mul_of_nonneg_right _ (by positivity)
    exact mul_le_mul_of_nonneg_left hG (by positivity)
  · -- axial monotonicity on the axis
    intro z1 z2 hz1 h12
    have hz2 : 0 ≤ z2 := le_trans hz1 h12
    rw [Foutz12_transmittance_def, Foutz12_transmittance_def]
    have hRz1 : 0 < apparent_radius p z1 := apparent_radius_pos p hR0 htan z1 hz1
    have hRz2 : 0 < apparent_radius p z2 := apparent_radius_pos p hR0 htan z2 hz2
    have hmono : apparent_radius p z1 ≤ apparent_radius p z2 :=
      apparent_radius_mono p htan z1 z2 h12
    rw [zero_div, zero_div]
    have hsq : ∀ z : ℝ, 0 ≤ z → Real.sqrt ((0:ℝ) ^ 2 + z ^ 2) = z := by
      intro z hz
      rw [show (0:ℝ) ^ 2 + z ^ 2 = z ^ 2 by ring, Real.sqrt_sq hz]
    rw [hsq z1 hz1, hsq z2 hz2]
    have hC : (p.R0 / apparent_radius p z2) ^ 2 ≤ (p.R0 / apparent_radius p z1) ^ 2 :=
      pow_le_pow_left₀ (div_nonneg hR0.le hRz2.le)
        (div_le_div_of_nonneg_left hR0.le hRz1 hmono) 2
    have hKM : kubelka_munk p z2 ≤ kubelka_munk p z1 :=
      kubelka_munk_antitone p hK hS z1 z2 hz1 h12
    have hKM2pos : 0 < kubelka_munk p z2 := kubelka_munk_pos p hK hS z2 hz2
    apply mul_le_mul _ hKM hKM2pos.le (by positivity)
    exact mul_le_mul_of_nonneg_left hC (by positivity)

theorem Foutz12_transmittance_origin_and_monotone_witness :
    0 < Foutz12_transmittance default_blue 0 0 true true true ∧
      Foutz12_transmittance default_blue 0 0 true true true ≤ 1 :=
  (Foutz12_transmittance_origin_and_monotone default_blue
    (by norm_num [default_blue]) (by norm_num [default_blue])
    (by norm_num [default_blue]) (by norm_num [default_blue])
    (by norm_num [default_blue])).1

end CleoOpto

namespace CleoOpto

theorem pCE_tan : Real.tan (theta_div pCE) = 3 / 4 := by
  have h1 : pCE.NAfib / pCE.ntis = 3 / 5 := by
    norm_num [pCE]
  unfold theta_div
  rw [h1, Real.tan_arcsin,
    show (1:ℝ) - (3 / 5) ^ 2 = (4 / 5) ^ 2 by norm_num,
    Real.sqrt_sq (by norm_num)]
  norm_num

theorem pCE_km_b : km_b pCE = 3 / 4 := by
  unfold km_b
  rw [show (1 + pCE.K / pCE.S) ^ 2 - 1 = ((3:ℝ) / 4) ^ 2 by norm_num [pCE],
    Real.sqrt_sq (by norm_num)]

/-- C8 counterexample: with the (valid) parameters `pCE`, the transmittance
at radial offset 0 strictly increases when the axial offset magnitude grows
from 0 to 1 (the point `z = -1` lies behind the fiber tip, where the
apparent radius shrinks to 1/4 and the cone factor `(R0/Rz)^2 = 16`
dominates the scattering loss), so the transmittance is not monotonically
non-increasing in the axial offset magnitude. -/
theorem Foutz12_transmittance_axial_not_monotone :
    Foutz12_transmittance pCE 0 0 true true true <
      Foutz12_transmittance pCE 0 (-1) true true true := by
  have hK : (0:ℝ) < pCE.K := by norm_num [pCE]
  have hS : (0:ℝ) < pCE.S := by norm_num [pCE]
  have hRz0 : apparent_radius pCE 0 = 1 := by
    unfold apparent_radius
    rw [pCE_tan]
    norm_num [pCE]
  have hRzm : apparent_radius pCE (-1) = 1 / 4 := by
    unfold apparent_radius
    rw [pCE_tan]
    norm_num [pCE]
  -- the Kubelka-Munk factor at distance 1 exceeds 1/16
  have hdpos : 0 < km_denom pCE 1 := km_denom_pos pCE hK hS 1 (by norm_num)
  have harg : km_b pCE * pCE.S * 1 = 3 / 40 := by
    rw [pCE_km_b]
    norm_num [pCE]
  have hdlt : km_denom pCE 1 < 3 := by
    unfold km_denom
    rw [harg, pCE_km_b, Real.sinh_eq, Real.cosh_eq,
      show (1 + pCE.K / pCE.S) = (5:ℝ) / 4 by norm_num [pCE]]
    have he1 : Real.exp ((3:ℝ) / 40) ≤ Real.exp 1 := Real.exp_le_exp.mpr (by norm_num)
    have he2 : Real.exp 1 < 2.7182818286 := Real.exp_one_lt_d9
    have he3 : (0:ℝ) < Real.exp (-((3:ℝ) / 40)) := Real.exp_pos _
    nlinarith
  have hKMgt : 1 / 16 < kubelka_munk pCE 1 := by
    unfold kubelka_munk
    rw [pCE_km_b, lt_div_iff₀ hdpos]
    nlinarith
  rw [Foutz12_transmittance_def, Foutz12_transmittance_def, hRz0, hRzm]
  have hsq0 : Real.sqrt ((0:ℝ) ^ 2 + 0 ^ 2) = 0 := by
    rw [show (0:ℝ) ^ 2 + 0 ^ 2 = 0 by ring]
    exact Real.sqrt_zero
  have hsq1 : Real.sqrt ((0:ℝ) ^ 2 + (-1:ℝ) ^ 2) = 1 := by
    rw [show (0:ℝ) ^ 2 + (-1:ℝ) ^ 2 = 1 by ring]
    exact Real.sqrt_one
  rw [hsq0, hsq1, kubelka_munk_zero pCE hK hS,
    show pCE.R0 = (1:ℝ) from rfl]
  rw [show ((0:ℝ) / 1) = 0 by norm_num, show ((0:ℝ) / (1 / 4)) = 0 by norm_num,
    show (-2 * (0:ℝ) ^ 2) = 0 by ring, Real.exp_zero]
  have hsqrt2pi : 0 < Real.sqrt (2 * Real.pi) :=
    Real.sqrt_pos.mpr (by positivity)
  have hc : 0 < 1 / Real.sqrt (2 * Real.pi) := by positivity
  rw [show 1 / Real.sqrt (2 * Real.pi) * 1 * (1 / 1 : ℝ) ^ 2 * 1
      = 1 / Real.sqrt (2 * Real.pi) by ring,
    show 1 / Real.sqrt (2 * Real.pi) * 1 * ((1 : ℝ) / (1 / 4)) ^ 2 * kubelka_munk pCE 1
      = 1 / Real.sqrt (2 * Real.pi) * (16 * kubelka_munk pCE 1) by ring]
  nlinarith [mul_pos hc (show (0:ℝ) < 16 * kubelka_munk pCE 1 - 1 by linarith)]

end CleoOpto
